import Mathlib

/-!
Shallow embedding of the Robot orchestration layer of the igus motor
controller (`src/robot.js`).  JavaScript strings (joint ids, config keys)
are modelled as lists of characters so that the dotted-key parsing
(`key.split('.')`) can be reasoned about; interactions with collaborators
(emitted events, Configuration Store writes, per-joint controller
commands) are recorded in observation logs inside the state.
-/

namespace Igus

/-- JavaScript strings (ids, config keys) as character lists. -/
abbrev Str := List Char

/-- Shorthand for writing model strings from Lean string literals. -/
def str (s : String) : Str := s.data

/-- A value stored in the in-memory `config` mirror: either a number
(a global key or a parameter value) or a nested parameter object for one
joint (`config[joint][param]`). -/
inductive JVal where
  | num (n : Int)
  | obj (params : List (Str × Int))
deriving DecidableEq

/-- Association-list lookup: a JavaScript object property read. -/
def getA {α : Type} : List (Str × α) → Str → Option α
  | [], _ => none
  | (k, v) :: rest, k' => if k = k' then some v else getA rest k'

/-- Association-list update: a JavaScript object property write (overwrites
an existing key in place, appends a new key at the end, preserving
insertion order). -/
def setA {α : Type} : List (Str × α) → Str → α → List (Str × α)
  | [], k, v => [(k, v)]
  | (k', v') :: rest, k, v =>
    if k' = k then (k, v) :: rest else (k', v') :: setA rest k v

/-- The JavaScript `key.split('.')`, specialised to the dot separator used
by `updateConfig`. -/
def splitDot : Str → List Str
  | [] => [[]]
  | c :: cs =>
    if c = '.' then [] :: splitDot cs
    else
      match splitDot cs with
      | [] => [[c]]
      | t :: ts => (c :: t) :: ts

/-- A command issued to one joint controller over its interface. -/
inductive JointCmd where
  | setPosition (position : Int) (velocity : Option Int)
  | goHome
  | reset
  | enable
  | disable
  | zero
  | calibrate
  | queryPosition
  | queryParameter (index subindex : Int)
  | writeSetPoints
deriving DecidableEq

/-- One joint controller (`Motor`) as observed by the Robot layer.  The
controller internals live in `motor.js`, which is not among the analysed
sources; its observable surface is modelled from the spec (§3, §6): a
joint-side homed flag (set when the home-reached event fires), dynamically
assigned parameters such as `limitAdj`, a counter of `updateZeroStep`
calls, and a log of commands the Robot issued to it.  `writeFails` models
whether this collaborator's set-point write raises an error.  Dynamically
assigned config parameters are kept in `params`, separate from the homed
flag; no claim involves a config key named after a controller flag. -/
structure Motor where
  id : Str
  home : Bool
  params : List (Str × Int)
  zeroSteps : Nat
  cmds : List JointCmd
  writeFails : Bool
deriving DecidableEq

/-- Events the Robot emits to its subscribers. -/
inductive Ev where
  | ready
  | state
  | meta
  | encoder
deriving DecidableEq

/-- Errors surfaced to a caller of a Robot operation.  `typeError` is the
JavaScript `TypeError` raised by a property access or assignment on
`undefined` (the only error the source code itself can raise on these
paths), and `jointCommandError` stands for an error raised inside a joint
controller command.  The remaining constructors name the dedicated error
classes the spec postulates (`UnknownJointError`, `InvalidConfigValueError`,
`ConfigKeyError`); no code in the source constructs them — they exist only
so that the spec's claims about them can be stated and compared with what
the code does. -/
inductive RobotError where
  | typeError
  | jointCommandError
  | unknownJointError
  | invalidConfigValueError
  | configKeyError
deriving DecidableEq

/-- The Robot state: the joint collection in registration order (the
source's `motorMap` is keyed by id with unique keys, and `motors` is its
value list), the five whole-robot flags, the in-memory config mirror, and
three observation logs: events emitted, configs written to the
Configuration Store, and the global order of per-joint set-point
dispatches. -/
structure RobotState where
  id : Str
  motors : List Motor
  stopped : Bool
  ready : Bool
  home : Bool
  homing : Bool
  moving : Bool
  config : List (Str × JVal)
  emitted : List Ev
  saved : List (List (Str × JVal))
  dispatched : List Str
deriving DecidableEq

/-- A freshly constructed joint controller (`new Motor({id, ...})`): homed
flag false, no parameters assigned, no commands received. -/
def mkMotor (id : Str) : Motor :=
  { id := id, home := false, params := [], zeroSteps := 0, cmds := [],
    writeFails := false }

/-- Robot construction (`constructor` + `setup` + `start`): the flags are
initialised to `stopped=false, ready=false, home=false, homing=false,
moving=false`, the config read from disk is `cfg`, one joint controller is
created per configured joint id in order, and `start()` finally sets
`ready=true` and emits `ready`.  (The construction is parameterised by
the joint id list, as in the repository's list-based constructor.) -/
def construct (rid : Str) (cfg : List (Str × JVal)) (ids : List Str) :
    RobotState :=
  { id := rid, motors := ids.map mkMotor, stopped := false, ready := true,
    home := false, homing := false, moving := false, config := cfg,
    emitted := [Ev.ready], saved := [], dispatched := [] }

/-- Append one emitted event (`this.emit(...)`). -/
def emitEv (s : RobotState) (e : Ev) : RobotState :=
  { s with emitted := s.emitted ++ [e] }

/-- `robotState()`: emit a `state` notification. -/
def robotState (s : RobotState) : RobotState := emitEv s Ev.state

/-- Effect on a joint controller of receiving command `c`: it is appended
to that controller's command log. -/
def cmdEff (c : JointCmd) (m : Motor) : Motor :=
  { m with cmds := m.cmds ++ [c] }

/-- Effect of `goHome()` on a joint controller: the homing procedure
restarts, so the joint-side homed flag is cleared (modelled from the
spec's description of homing, §Glossary) and the command is logged. -/
def goHomeEff (m : Motor) : Motor :=
  { m with home := false, cmds := m.cmds ++ [JointCmd.goHome] }

/-- Effect of `updateZeroStep()` on a joint controller. -/
def updateZeroStepEff (m : Motor) : Motor :=
  { m with zeroSteps := m.zeroSteps + 1 }

/-- Effect of the dynamic property write `motorMap[joint][param] = value`. -/
def setParamEff (p : Str) (v : Int) (m : Motor) : Motor :=
  { m with params := setA m.params p v }

/-- `this.motorMap[id]`: lookup of a joint controller by id. -/
def findMotor (s : RobotState) (id : Str) : Option Motor :=
  s.motors.find? (fun m => m.id == id)

/-- Apply `f` to the joint controller with the given id (joint ids are
unique keys of `motorMap`, per construction). -/
def updMotor (s : RobotState) (id : Str) (f : Motor → Motor) : RobotState :=
  { s with motors := s.motors.map (fun m => if m.id == id then f m else m) }

/-- The `this.motorMap[id].command()` pattern of the per-joint actions: if
the id is absent, the property access on `undefined` raises a JavaScript
`TypeError` and nothing is mutated; otherwise the command is issued to the
joint controller. -/
def motorDo (s : RobotState) (id : Str) (f : Motor → Motor) :
    RobotState × Option RobotError :=
  match findMotor s id with
  | none => (s, some RobotError.typeError)
  | some _ => (updMotor s id f, none)

/-- `motorSetPosition(id, position, velocity)`. -/
def motorSetPosition (s : RobotState) (id : Str) (position : Int)
    (velocity : Option Int) : RobotState × Option RobotError :=
  motorDo s id (cmdEff (JointCmd.setPosition position velocity))

/-- `motorHome(id)`. -/
def motorHome (s : RobotState) (id : Str) : RobotState × Option RobotError :=
  motorDo s id goHomeEff

/-- `motorResetErrors(id)`. -/
def motorResetErrors (s : RobotState) (id : Str) :
    RobotState × Option RobotError :=
  motorDo s id (cmdEff JointCmd.reset)

/-- `motorEnable(id)`. -/
def motorEnable (s : RobotState) (id : Str) : RobotState × Option RobotError :=
  motorDo s id (cmdEff JointCmd.enable)

/-- `motorDisable(id)`. -/
def motorDisable (s : RobotState) (id : Str) : RobotState × Option RobotError :=
  motorDo s id (cmdEff JointCmd.disable)

/-- `motorZero(id)`. -/
def motorZero (s : RobotState) (id : Str) : RobotState × Option RobotError :=
  motorDo s id (cmdEff JointCmd.zero)

/-- `motorCalibrate(id)`. -/
def motorCalibrate (s : RobotState) (id : Str) :
    RobotState × Option RobotError :=
  motorDo s id (cmdEff JointCmd.calibrate)

/-- `queryMotorPosition(id)`. -/
def queryMotorPosition (s : RobotState) (id : Str) :
    RobotState × Option RobotError :=
  motorDo s id (cmdEff JointCmd.queryPosition)

/-- `queryMotorParamter(id, index, subindex)` (sic, the source's name). -/
def queryMotorParamter (s : RobotState) (id : Str) (index subindex : Int) :
    RobotState × Option RobotError :=
  motorDo s id (cmdEff (JointCmd.queryParameter index subindex))

/-- `robotHome()`: set `homing = true`, then issue `goHome()` to every
joint controller.  Note that the source does not clear `home` here. -/
def robotHome (s : RobotState) : RobotState :=
  { s with homing := true, motors := s.motors.map goHomeEff }

/-- `robotStop()`: set `stopped = true`, disable every joint, emit `meta`. -/
def robotStop (s : RobotState) : RobotState :=
  emitEv { s with stopped := true,
                  motors := s.motors.map (cmdEff JointCmd.disable) } Ev.meta

/-- `robotCenter()`: set `moving = true`, zero every joint, emit `meta`. -/
def robotCenter (s : RobotState) : RobotState :=
  emitEv { s with moving := true,
                  motors := s.motors.map (cmdEff JointCmd.zero) } Ev.meta

/-- `robotReset()`: set `stopped = false`, reset every joint, emit `meta`. -/
def robotReset (s : RobotState) : RobotState :=
  emitEv { s with stopped := false,
                  motors := s.motors.map (cmdEff JointCmd.reset) } Ev.meta

/-- `robotEnable()`: set `stopped = false`, enable every joint, emit
`meta`. -/
def robotEnable (s : RobotState) : RobotState :=
  emitEv { s with stopped := false,
                  motors := s.motors.map (cmdEff JointCmd.enable) } Ev.meta

/-- The joint side of a home-reached event: the controller sets its homed
flag before emitting `home` (modelled from the spec, §6: the event means
the homing procedure completed). -/
def setMotorHomeTrue (s : RobotState) (id : Str) : RobotState :=
  { s with motors :=
      s.motors.map (fun m => if m.id == id then { m with home := true } else m) }

/-- `motorHomed(id)`: if the robot is homing and every joint controller
reports homed, set `home = true` and `homing = false`; always emit `meta`
then `state`. -/
def motorHomed (s : RobotState) (_id : Str) : RobotState :=
  let s1 :=
    if s.homing && s.motors.all (fun m => m.home) then
      { s with home := true, homing := false }
    else s
  emitEv (emitEv s1 Ev.meta) Ev.state

/-- A complete home-reached event from joint `id`: the controller records
that it is homed, then the Robot's `motorHomed` listener runs. -/
def homeEvent (s : RobotState) (id : Str) : RobotState :=
  motorHomed (setMotorHomeTrue s id) id

/-- The `this.motors.forEach(motor => motor.writeJointSetPoints())` loop:
JavaScript `forEach` runs the callback sequentially and an uncaught error
aborts the iteration and propagates, so a failing write stops the loop;
the joints already written keep their command, the rest are untouched.
Returns the updated controllers, the dispatch log, and the propagated
error, if any. -/
def writeAll : List Motor → List Str → List Motor × List Str × Option RobotError
  | [], log => ([], log, none)
  | m :: ms, log =>
    if m.writeFails then (m :: ms, log, some RobotError.jointCommandError)
    else
      match writeAll ms (log ++ [m.id]) with
      | (ms', log', e) => (cmdEff JointCmd.writeSetPoints m :: ms', log', e)

/-- `writeJointSetPoints()`: if `stopped`, return immediately without
touching any joint; otherwise write the set points of all joints in
registration order. -/
def writeJointSetPoints (s : RobotState) : RobotState × Option RobotError :=
  if s.stopped then (s, none)
  else
    match writeAll s.motors s.dispatched with
    | (ms, log, e) => ({ s with motors := ms, dispatched := log }, e)

/-- `updateConfig(key, value, save)`.  A `null` value only logs and
returns (no error object is thrown, nothing changes).  A dotted key is
split; `config[joint][param] = value` raises a `TypeError` when
`config[joint]` is absent (property assignment on `undefined`) or a
primitive (strict-mode assignment on a primitive), and
`motorMap[joint][param] = value` raises a `TypeError` when the joint id is
unknown — at which point the config entry has already been mutated.  A
`limitAdj` parameter additionally triggers `updateZeroStep()` on the
joint.  If `save` is set the config is written to the store, and a `meta`
event concludes the successful paths. -/
def updateConfig (s : RobotState) (key : Str) (value : Option Int)
    (save : Bool) : RobotState × Option RobotError :=
  match value with
  | none => (s, none)
  | some v =>
    let finish (s1 : RobotState) : RobotState × Option RobotError :=
      let s2 := if save then { s1 with saved := s1.saved ++ [s1.config] } else s1
      (emitEv s2 Ev.meta, none)
    if key.contains '.' then
      match splitDot key with
      | joint :: param :: _ =>
        match getA s.config joint with
        | some (JVal.obj pm) =>
          let s1 := { s with config := setA s.config joint (JVal.obj (setA pm param v)) }
          match findMotor s1 joint with
          | none => (s1, some RobotError.typeError)
          | some _ =>
            let s2 := updMotor s1 joint (setParamEff param v)
            let s3 :=
              if param == str "limitAdj" then updMotor s2 joint updateZeroStepEff
              else s2
            finish s3
        | some (JVal.num _) => (s, some RobotError.typeError)
        | none => (s, some RobotError.typeError)
      | _ => (s, some RobotError.typeError)
    else
      finish { s with config := setA s.config key (JVal.num v) }

/-- Every entry point that can run between construction and shutdown: the
whole-robot commands, the per-joint commands, the joint event listeners,
`updateConfig`, and the three periodic scheduler ticks. -/
inductive Op where
  | robotHome
  | robotStop
  | robotCenter
  | robotReset
  | robotEnable
  | homeEvent (id : Str)
  | jointEvent
  | writeTick
  | stateTick
  | encoderTick
  | updateConfig (key : Str) (value : Option Int) (save : Bool)
  | motorSetPosition (id : Str) (position : Int) (velocity : Option Int)
  | motorHome (id : Str)
  | motorResetErrors (id : Str)
  | motorEnable (id : Str)
  | motorDisable (id : Str)
  | motorZero (id : Str)
  | motorCalibrate (id : Str)
  | queryMotorPosition (id : Str)
  | queryMotorParamter (id : Str) (index subindex : Int)
deriving DecidableEq

/-- One execution step.  For the fallible operations the state component
is kept whether or not an error escaped to the caller: JavaScript object
mutations performed before a throw persist. -/
def step (s : RobotState) : Op → RobotState
  | Op.robotHome => robotHome s
  | Op.robotStop => robotStop s
  | Op.robotCenter => robotCenter s
  | Op.robotReset => robotReset s
  | Op.robotEnable => robotEnable s
  | Op.homeEvent id => homeEvent s id
  | Op.jointEvent => robotState s
  | Op.writeTick => (writeJointSetPoints s).1
  | Op.stateTick => emitEv s Ev.state
  | Op.encoderTick => emitEv s Ev.encoder
  | Op.updateConfig k v sv => (updateConfig s k v sv).1
  | Op.motorSetPosition id p v => (motorSetPosition s id p v).1
  | Op.motorHome id => (motorHome s id).1
  | Op.motorResetErrors id => (motorResetErrors s id).1
  | Op.motorEnable id => (motorEnable s id).1
  | Op.motorDisable id => (motorDisable s id).1
  | Op.motorZero id => (motorZero s id).1
  | Op.motorCalibrate id => (motorCalibrate s id).1
  | Op.queryMotorPosition id => (queryMotorPosition s id).1
  | Op.queryMotorParamter id i j => (queryMotorParamter s id i j).1

/-- Run a trace of operations. -/
def execTrace (s : RobotState) (t : List Op) : RobotState := t.foldl step s

/-- Whether firing `op` in state `s` respects the home-safety proviso:
`robotHome()` is only invoked while `home` is still false. -/
def opHomeSafe (s : RobotState) : Op → Bool
  | Op.robotHome => !s.home
  | _ => true

/-- A trace is home-safe when `robotHome()` is only ever invoked in a
state where `home` is still false. -/
def safeTrace : RobotState → List Op → Bool
  | _, [] => true
  | s, op :: t => opHomeSafe s op && safeTrace (step s op) t

/-- A two-joint state whose first controller's set-point write raises,
exercising the failure path of the set-point fan-out. -/
def failFanoutState : RobotState :=
  { construct (str "r") [] [str "j0", str "j1"] with
      motors := [{ mkMotor (str "j0") with writeFails := true },
                 mkMotor (str "j1")] }

theorem contains_append {α : Type} [BEq α] [LawfulBEq α] (l₁ l₂ : List α)
    (c : α) : (l₁ ++ l₂).contains c = (l₁.contains c || l₂.contains c) := by
  simp [List.contains, List.elem_iff, List.mem_append]

theorem contains_dot (j p : Str) : (j ++ '.' :: p).contains '.' = true := by
  simp [List.contains, List.elem_iff, List.mem_append]

theorem contains_false_of_not_mem (p : Str) (h : '.' ∉ p) :
    p.contains '.' = false := by
  simp [List.contains, List.elem_iff, h]

theorem splitDot_no_dot (p : Str) (h : '.' ∉ p) : splitDot p = [p] := by
  induction p with
  | nil => rfl
  | cons c cs ih =>
    have hc : ¬ c = '.' := fun hh => h (hh ▸ List.mem_cons_self c cs)
    have hcs : '.' ∉ cs := fun hh => h (List.mem_cons_of_mem c hh)
    rw [splitDot, if_neg hc, ih hcs]

theorem splitDot_append (j p : Str) (hj : '.' ∉ j) :
    splitDot (j ++ '.' :: p) = j :: splitDot p := by
  induction j with
  | nil => simp [splitDot]
  | cons c cs ih =>
    have hc : ¬ c = '.' := fun hh => hj (hh ▸ List.mem_cons_self c cs)
    have hcs : '.' ∉ cs := fun hh => hj (List.mem_cons_of_mem c hh)
    have := ih hcs
    simp only [List.cons_append, splitDot, if_neg hc]
    simp [List.append_eq, this]

theorem getA_setA_self {α : Type} (m : List (Str × α)) (k : Str) (v : α) :
    getA (setA m k v) k = some v := by
  induction m with
  | nil => simp [setA, getA]
  | cons kv rest ih =>
    by_cases h : kv.1 = k
    · simp [setA, getA, h]
    · simp [setA, getA, h, ih]

theorem writeAll_clean (ms : List Motor) (log : List Str)
    (h : ∀ m ∈ ms, m.writeFails = false) :
    writeAll ms log =
      (ms.map (cmdEff JointCmd.writeSetPoints),
       log ++ ms.map (fun m => m.id), none) := by
  induction ms generalizing log with
  | nil => simp [writeAll]
  | cons m ms ih =>
    have hm : m.writeFails = false := h m (List.mem_cons_self _ _)
    have ih' := ih (log ++ [m.id]) (fun x hx => h x (List.mem_cons_of_mem _ hx))
    simp [writeAll, hm, ih']

theorem writeAll_fail (pre post : List Motor) (bad : Motor) (log : List Str)
    (hpre : ∀ m ∈ pre, m.writeFails = false) (hbad : bad.writeFails = true) :
    writeAll (pre ++ bad :: post) log =
      (pre.map (cmdEff JointCmd.writeSetPoints) ++ bad :: post,
       log ++ pre.map (fun m => m.id), some RobotError.jointCommandError) := by
  induction pre generalizing log with
  | nil => simp [writeAll, hbad]
  | cons m pre ih =>
    have hm : m.writeFails = false := hpre m (List.mem_cons_self _ _)
    have ih' := ih (log ++ [m.id]) (fun x hx => hpre x (List.mem_cons_of_mem _ hx))
    simp [writeAll, hm, ih']

/-- C9: for every joint set (and any loaded config), immediately after
Robot construction completes, `home = false`, `homing = false` and
`stopped = false`. -/
theorem c9_construction_flags (rid : Str) (cfg : List (Str × JVal))
    (ids : List Str) :
    (construct rid cfg ids).home = false ∧
    (construct rid cfg ids).homing = false ∧
    (construct rid cfg ids).stopped = false := by
  exact ⟨rfl, rfl, rfl⟩

/-- C6 counterexample: `updateConfig` with a `null` value leaves the state
unchanged but reports no error at all to the caller — in particular not
the `InvalidConfigValueError` the claim requires (the source only logs and
returns). -/
theorem c6_null_value_cex :
    updateConfig (construct (str "r") [(str "j0", JVal.obj [])] [str "j0"])
        (str "j0.limitAdj") none true
      = (construct (str "r") [(str "j0", JVal.obj [])] [str "j0"], none) ∧
    (none : Option RobotError) ≠ some RobotError.invalidConfigValueError :=
  ⟨rfl, by decide⟩

/-- C6 (amended): for every key and every persist argument,
`updateConfig(key, null, persist)` leaves the config mapping and all joint
state unchanged, does not persist, does not emit a meta notification, and
returns silently without reporting any error to the caller (the rejection
is only logged). -/
theorem c6_null_value_amended (s : RobotState) (key : Str) (persist : Bool) :
    updateConfig s key none persist = (s, none) := rfl

/-- C3: while `stopped = true`, `writeJointSetPoints()` issues zero
per-joint dispatch calls and leaves all robot flags and joint states
unchanged; while `stopped = false` (and no collaborator write raises) it
invokes the per-joint set-point write on every joint exactly once, in
joint-registration order. -/
theorem c3_stopped_gates_dispatch (s : RobotState) :
    (s.stopped = true → writeJointSetPoints s = (s, none)) ∧
    (s.stopped = false → (∀ m ∈ s.motors, m.writeFails = false) →
      writeJointSetPoints s =
        ({ s with motors := s.motors.map (cmdEff JointCmd.writeSetPoints),
                  dispatched := s.dispatched ++ s.motors.map (fun m => m.id) },
         none)) := by
  constructor
  · intro h
    simp [writeJointSetPoints, h]
  · intro h hw
    simp [writeJointSetPoints, h, writeAll_clean s.motors s.dispatched hw]

/-- C3 witness: the stopped robot dispatches nothing and the running robot
dispatches to both joints in order. -/
theorem c3_stopped_gates_dispatch_witness :
    ({ construct (str "r") [] [str "j0", str "j1"] with stopped := true
       } : RobotState).stopped = true ∧
    writeJointSetPoints { construct (str "r") [] [str "j0", str "j1"] with
        stopped := true }
      = ({ construct (str "r") [] [str "j0", str "j1"] with stopped := true },
         none) ∧
    writeJointSetPoints (construct (str "r") [] [str "j0", str "j1"])
      = ({ construct (str "r") [] [str "j0", str "j1"] with
            motors := (construct (str "r") [] [str "j0", str "j1"]).motors.map
              (cmdEff JointCmd.writeSetPoints),
            dispatched := [str "j0", str "j1"] }, none) := by
  refine ⟨rfl, ?_, ?_⟩
  · exact (c3_stopped_gates_dispatch _).1 rfl
  · have h := (c3_stopped_gates_dispatch
      (construct (str "r") [] [str "j0", str "j1"])).2 rfl (by decide)
    simpa using h

/-- C4 counterexample: with two joints whose first set-point write raises,
the error propagates out of `writeJointSetPoints()` and the second joint's
write is never attempted (no dispatch recorded, no command logged on
either controller). -/
theorem c4_failure_isolation_cex :
    (writeJointSetPoints failFanoutState).2 = some RobotError.jointCommandError ∧
    (writeJointSetPoints failFanoutState).1.dispatched = [] ∧
    (writeJointSetPoints failFanoutState).1.motors.map (fun m => m.cmds)
      = [[], []] := by
  decide

/-- C4 (amended): a failure (raised error) in one joint's set-point write
aborts the fan-out of `writeJointSetPoints()`: the joints after it in
registration order are not attempted, the error propagates to the caller,
and only the joints before the failing one have their writes performed. -/
theorem c4_failure_aborts_fanout (s : RobotState) (pre post : List Motor)
    (bad : Motor) (hs : s.stopped = false) (hm : s.motors = pre ++ bad :: post)
    (hpre : ∀ m ∈ pre, m.writeFails = false) (hbad : bad.writeFails = true) :
    writeJointSetPoints s =
      ({ s with motors := pre.map (cmdEff JointCmd.writeSetPoints) ++ bad :: post,
                dispatched := s.dispatched ++ pre.map (fun m => m.id) },
       some RobotError.jointCommandError) := by
  simp [writeJointSetPoints, hs, hm, writeAll_fail pre post bad s.dispatched hpre hbad]

/-- C4 witness: the amended fan-out abort behaviour at the concrete
two-joint failing state. -/
theorem c4_failure_aborts_fanout_witness :
    failFanoutState.stopped = false ∧
    writeJointSetPoints failFanoutState =
      ({ failFanoutState with
          motors := [{ mkMotor (str "j0") with writeFails := true },
                     mkMotor (str "j1")],
          dispatched := [] }, some RobotError.jointCommandError) := by
  refine ⟨rfl, ?_⟩
  have h := c4_failure_aborts_fanout failFanoutState []
    [mkMotor (str "j1")] ({ mkMotor (str "j0") with writeFails := true })
    rfl rfl (by simp) rfl
  simpa using h

/-- C8 counterexample: `motorSetPosition('ghost', 10)` raises the generic
JavaScript `TypeError` from the `undefined` lookup, not a dedicated
`UnknownJointError`; the state is unchanged. -/
theorem c8_unknown_motor_cex :
    (motorSetPosition (construct (str "r") [] [str "j0"]) (str "ghost")
        10 none).2 = some RobotError.typeError ∧
    some RobotError.typeError ≠ some RobotError.unknownJointError ∧
    (motorSetPosition (construct (str "r") [] [str "j0"]) (str "ghost")
        10 none).1 = construct (str "r") [] [str "j0"] := by
  decide

/-- C8 (amended): for every joint id not present in the configured joint
set, `motorSetPosition` raises a `TypeError« (property access on
`undefined`) to the caller — there is no dedicated `UnknownJointError`
class — and the states of all configured joints and all robot flags
remain unchanged. -/
theorem c8_unknown_motor_amended (s : RobotState) (id : Str) (position : Int)
    (velocity : Option Int) (h : findMotor s id = none) :
    motorSetPosition s id position velocity = (s, some RobotError.typeError) := by
  simp [motorSetPosition, motorDo, h]

/-- C8 witness: the amended behaviour at the concrete one-joint robot and
the unknown id `ghost`. -/
theorem c8_unknown_motor_amended_witness :
    findMotor (construct (str "r") [] [str "j0"]) (str "ghost") = none ∧
    motorSetPosition (construct (str "r") [] [str "j0"]) (str "ghost") 10 none
      = (construct (str "r") [] [str "j0"], some RobotError.typeError) :=
  ⟨by decide, c8_unknown_motor_amended _ _ _ _ (by decide)⟩

/-- C5 counterexample: when the in-memory config has no entry for the
joint (the default after a fresh `config.json` is created), the very first
assignment `config[joint][param] = value` raises a `TypeError`, so nothing
is updated, no zero-step recalculation happens and no meta event is
emitted. -/
theorem c5_missing_config_entry_cex :
    updateConfig (construct (str "r") [] [str "j0"]) (str "j0.limitAdj")
        (some 5) false
      = (construct (str "r") [] [str "j0"], some RobotError.typeError) := by
  decide

set_option linter.unnecessarySeqFocus false in
/-- C5 (amended): provided the in-memory config already holds a parameter
object for joint `j`, `updateConfig('j.limitAdj', v, persist)` with
non-null `v` sets both the config entry and the live joint's `limitAdj`
parameter to `v`, triggers the joint's zero-step recalculation, emits
exactly one meta notification, and writes the config to the Configuration
Store before returning exactly when `persist` is true (in particular not
at all when `persist` is false).  Without such a config entry the call
raises a `TypeError` instead (see the counterexample). -/
theorem c5_updateConfig_limitAdj_amended (s : RobotState) (j : Str)
    (pm : List (Str × Int)) (mo : Motor) (v : Int) (persist : Bool)
    (hj : '.' ∉ j) (hc : getA s.config j = some (JVal.obj pm))
    (hm : findMotor s j = some mo) :
    (updateConfig s (j ++ '.' :: str "limitAdj") (some v) persist).2 = none ∧
    (updateConfig s (j ++ '.' :: str "limitAdj") (some v) persist).1.config
      = setA s.config j (JVal.obj (setA pm (str "limitAdj") v)) ∧
    getA (updateConfig s (j ++ '.' :: str "limitAdj") (some v) persist).1.config j
      = some (JVal.obj (setA pm (str "limitAdj") v)) ∧
    getA (setA pm (str "limitAdj") v) (str "limitAdj") = some v ∧
    (updateConfig s (j ++ '.' :: str "limitAdj") (some v) persist).1.motors
      = s.motors.map (fun m =>
          if m.id == j then
            { m with params := setA m.params (str "limitAdj") v,
                     zeroSteps := m.zeroSteps + 1 }
          else m) ∧
    (updateConfig s (j ++ '.' :: str "limitAdj") (some v) persist).1.emitted
      = s.emitted ++ [Ev.meta] ∧
    (updateConfig s (j ++ '.' :: str "limitAdj") (some v) persist).1.saved
      = s.saved ++
        (if persist then [setA s.config j (JVal.obj (setA pm (str "limitAdj") v))]
         else []) := by
  have hkey : (j ++ '.' :: str "limitAdj").contains '.' = true := contains_dot _ _
  have hsplit : splitDot (j ++ '.' :: str "limitAdj") = [j, str "limitAdj"] := by
    rw [splitDot_append _ _ hj]
    rfl
  have hm' : s.motors.find? (fun m => m.id == j) = some mo := hm
  cases persist <;>
    (refine ⟨?_, ?_, ?_, getA_setA_self _ _ _, ?_, ?_, ?_⟩ <;>
      simp [updateConfig, hkey, hsplit, hc, findMotor, hm', emitEv, updMotor,
            setParamEff, updateZeroStepEff, getA_setA_self, List.map_map] <;>
      (intro m _; by_cases hmj : m.id = j <;> simp [hmj]))

/-- C5 witness: the amended behaviour at a concrete one-joint robot whose
config holds an (empty) parameter object for `j0`, with `v = 5` and
`persist = false`. -/
theorem c5_updateConfig_limitAdj_witness :
    ('.' ∉ str "j0") ∧
    getA (construct (str "r") [(str "j0", JVal.obj [])] [str "j0"]).config
      (str "j0") = some (JVal.obj []) ∧
    findMotor (construct (str "r") [(str "j0", JVal.obj [])] [str "j0"])
      (str "j0") = some (mkMotor (str "j0")) ∧
    (updateConfig (construct (str "r") [(str "j0", JVal.obj [])] [str "j0"])
        (str "j0" ++ '.' :: str "limitAdj") (some 5) false).2 = none ∧
    (updateConfig (construct (str "r") [(str "j0", JVal.obj [])] [str "j0"])
        (str "j0" ++ '.' :: str "limitAdj") (some 5) false).1.config
      = setA (construct (str "r") [(str "j0", JVal.obj [])] [str "j0"]).config
          (str "j0") (JVal.obj (setA [] (str "limitAdj") 5)) := by
  refine ⟨by decide, by decide, by decide, ?_, ?_⟩
  · exact (c5_updateConfig_limitAdj_amended _ _ [] (mkMotor (str "j0")) 5 false
      (by decide) (by decide) (by decide)).1
  · exact (c5_updateConfig_limitAdj_amended _ _ [] (mkMotor (str "j0")) 5 false
      (by decide) (by decide) (by decide)).2.1

/-- C7 counterexample: when the loaded config happens to contain an entry
for the unknown joint id, `updateConfig('ghost.param', 1, false)` mutates
the config entry first and only then raises — a `TypeError` from the
`undefined` motor lookup, not a `ConfigKeyError` — so the claim's "mutates
nothing" and its error type are both wrong. -/
theorem c7_unknown_joint_key_cex :
    (updateConfig (construct (str "r") [(str "ghost", JVal.obj [])] [str "j0"])
        (str "ghost.param") (some 1) false).2 = some RobotError.typeError ∧
    some RobotError.typeError ≠ some RobotError.configKeyError ∧
    (updateConfig (construct (str "r") [(str "ghost", JVal.obj [])] [str "j0"])
        (str "ghost.param") (some 1) false).1.config
      = [(str "ghost", JVal.obj [(str "param", 1)])] ∧
    (construct (str "r") [(str "ghost", JVal.obj [])] [str "j0"]).config
      = [(str "ghost", JVal.obj [])] := by
  decide

/-- C7 (amended): for a dotted key whose joint segment `g` is not an
existing joint id, `updateConfig` raises a `TypeError` (no dedicated
`ConfigKeyError` class exists); the joints, flags, emitted events and
store are unchanged, and the config mapping is unchanged when it has no
object entry for `g` but is mutated at `g` before the raise when it does
— so the "mutates nothing" part of the claim holds only in the former
case. -/
theorem c7_unknown_joint_key_amended (s : RobotState) (g p : Str) (v : Int)
    (persist : Bool) (hg : '.' ∉ g) (hp : '.' ∉ p)
    (hmg : findMotor s g = none) :
    (updateConfig s (g ++ '.' :: p) (some v) persist).2
      = some RobotError.typeError ∧
    (updateConfig s (g ++ '.' :: p) (some v) persist).1.motors = s.motors ∧
    (updateConfig s (g ++ '.' :: p) (some v) persist).1.emitted = s.emitted ∧
    (updateConfig s (g ++ '.' :: p) (some v) persist).1.saved = s.saved ∧
    (updateConfig s (g ++ '.' :: p) (some v) persist).1.stopped = s.stopped ∧
    (updateConfig s (g ++ '.' :: p) (some v) persist).1.home = s.home ∧
    (updateConfig s (g ++ '.' :: p) (some v) persist).1.homing = s.homing ∧
    (updateConfig s (g ++ '.' :: p) (some v) persist).1.moving = s.moving ∧
    (getA s.config g = none →
      (updateConfig s (g ++ '.' :: p) (some v) persist).1 = s) ∧
    (∀ n, getA s.config g = some (JVal.num n) →
      (updateConfig s (g ++ '.' :: p) (some v) persist).1 = s) ∧
    (∀ pm, getA s.config g = some (JVal.obj pm) →
      (updateConfig s (g ++ '.' :: p) (some v) persist).1
        = { s with config := setA s.config g (JVal.obj (setA pm p v)) }) := by
  have hkey : (g ++ '.' :: p).contains '.' = true := contains_dot _ _
  have hsplit : splitDot (g ++ '.' :: p) = [g, p] := by
    rw [splitDot_append _ _ hg, splitDot_no_dot _ hp]
  cases hcg : getA s.config g with
  | none =>
    refine ⟨?_, ?_, ?_, ?_, ?_, ?_, ?_, ?_, ?_, ?_, ?_⟩ <;>
      simp [updateConfig, hkey, hsplit, hcg]
  | some jv =>
    cases jv with
    | num n =>
      refine ⟨?_, ?_, ?_, ?_, ?_, ?_, ?_, ?_, ?_, ?_, ?_⟩ <;>
        simp [updateConfig, hkey, hsplit, hcg]
    | obj pm =>
      have hfm : findMotor { s with
          config := setA s.config g (JVal.obj (setA pm p v)) } g = none := hmg
      refine ⟨?_, ?_, ?_, ?_, ?_, ?_, ?_, ?_, ?_, ?_, ?_⟩ <;>
        simp [updateConfig, hkey, hsplit, hcg, hfm]

/-- C7 witness: the amended behaviour at the concrete state whose config
contains an object entry for the unknown joint id `ghost`. -/
theorem c7_unknown_joint_key_amended_witness :
    ('.' ∉ str "ghost") ∧ ('.' ∉ str "param") ∧
    findMotor (construct (str "r") [(str "ghost", JVal.obj [])] [str "j0"])
      (str "ghost") = none ∧
    (updateConfig (construct (str "r") [(str "ghost", JVal.obj [])] [str "j0"])
        (str "ghost" ++ '.' :: str "param") (some 1) false).2
      = some RobotError.typeError := by
  refine ⟨by decide, by decide, by decide, ?_⟩
  exact (c7_unknown_joint_key_amended _ _ _ 1 false (by decide) (by decide)
    (by decide)).1

theorem contains_singleton {α : Type} [BEq α] [LawfulBEq α]
    [DecidableEq α] (j i : α) : [j].contains i = (i == j) := by
  by_cases h : i = j
  · subst h
    simp [List.contains, List.elem_iff]
  · simp [List.contains, List.elem_iff, h, beq_false_of_ne h]

theorem motors_pair_update (ms : List Motor) (ids : List Str) (c : Str → Bool)
    (j : Str)
    (h : ms.map (fun m => (m.id, m.home)) = ids.map (fun i => (i, c i))) :
    (ms.map (fun m => if m.id == j then { m with home := true } else m)).map
        (fun m => (m.id, m.home))
      = ids.map (fun i => (i, c i || i == j)) := by
  induction ms generalizing ids with
  | nil =>
    cases ids with
    | nil => simp
    | cons a l => simp at h
  | cons m ms ih =>
    cases ids with
    | nil => simp at h
    | cons i is =>
      simp only [List.map_cons, List.cons.injEq, Prod.mk.injEq] at h
      obtain ⟨⟨hid, hhome⟩, htail⟩ := h
      subst hid
      simp only [List.map_cons, List.cons.injEq, Prod.mk.injEq]
      refine ⟨?_, ih is htail⟩
      cases hmj : m.id == j <;> simp [hmj, hhome]

theorem motors_all_home (ms : List Motor) (ids : List Str) (c : Str → Bool)
    (h : ms.map (fun m => (m.id, m.home)) = ids.map (fun i => (i, c i))) :
    ms.all (fun m => m.home) = ids.all c := by
  induction ms generalizing ids with
  | nil =>
    cases ids with
    | nil => rfl
    | cons a l => simp at h
  | cons m ms ih =>
    cases ids with
    | nil => simp at h
    | cons i is =>
      simp only [List.map_cons, List.cons.injEq, Prod.mk.injEq] at h
      obtain ⟨⟨hid, hhome⟩, htail⟩ := h
      simp [List.all_cons, hhome, ih is htail]

theorem motorHomed_flags (s : RobotState) (j : Str) :
    (motorHomed s j).home
      = (s.homing && s.motors.all (fun m => m.home) || s.home) ∧
    (motorHomed s j).homing
      = (s.homing && !(s.motors.all (fun m => m.home))) ∧
    (motorHomed s j).motors = s.motors ∧
    (motorHomed s j).moving = s.moving ∧
    (motorHomed s j).stopped = s.stopped := by
  unfold motorHomed
  cases hHoming : s.homing <;>
    cases hAll : s.motors.all (fun m => m.home) <;>
      simp [hHoming, hAll, emitEv]

theorem homeEvent_flags (s : RobotState) (j : Str) :
    (homeEvent s j).home
      = (s.homing && (setMotorHomeTrue s j).motors.all (fun m => m.home)
         || s.home) ∧
    (homeEvent s j).homing
      = (s.homing && !((setMotorHomeTrue s j).motors.all (fun m => m.home))) ∧
    (homeEvent s j).motors = (setMotorHomeTrue s j).motors ∧
    (homeEvent s j).moving = s.moving ∧
    (homeEvent s j).stopped = s.stopped :=
  motorHomed_flags (setMotorHomeTrue s j) j

theorem homeEvent_inv (s : RobotState) (ids seen : List Str) (j : Str)
    (hpair : s.motors.map (fun m => (m.id, m.home))
      = ids.map (fun i => (i, seen.contains i)))
    (hh : s.home = ids.all (fun i => seen.contains i))
    (hg : s.homing = !s.home) :
    (homeEvent s j).motors.map (fun m => (m.id, m.home))
        = ids.map (fun i => (i, (seen ++ [j]).contains i)) ∧
    (homeEvent s j).home = ids.all (fun i => (seen ++ [j]).contains i) ∧
    (homeEvent s j).homing = !(homeEvent s j).home := by
  have hc : ∀ i : Str, (seen ++ [j]).contains i = (seen.contains i || i == j) :=
    fun i => by rw [contains_append, contains_singleton]
  have hp2 : (setMotorHomeTrue s j).motors.map (fun m => (m.id, m.home))
      = ids.map (fun i => (i, seen.contains i || i == j)) :=
    motors_pair_update s.motors ids _ j hpair
  have hall : (setMotorHomeTrue s j).motors.all (fun m => m.home)
      = ids.all (fun i => seen.contains i || i == j) :=
    motors_all_home _ ids _ hp2
  have hmapeq : ids.map (fun i => (i, (seen ++ [j]).contains i))
      = ids.map (fun i => (i, seen.contains i || i == j)) :=
    List.map_congr_left (fun i _ => by rw [hc])
  have hall2 : ids.all (fun i => (seen ++ [j]).contains i)
      = ids.all (fun i => seen.contains i || i == j) := by
    cases hA : ids.all (fun i => (seen ++ [j]).contains i) with
    | true =>
      rw [List.all_eq_true] at hA
      have : ids.all (fun i => seen.contains i || i == j) = true := by
        rw [List.all_eq_true]
        intro i hi
        rw [← hc]
        exact hA i hi
      rw [this]
    | false =>
      cases hB : ids.all (fun i => seen.contains i || i == j) with
      | true =>
        rw [List.all_eq_true] at hB
        have : ids.all (fun i => (seen ++ [j]).contains i) = true := by
          rw [List.all_eq_true]
          intro i hi
          rw [hc]
          exact hB i hi
        rw [hA] at this
        exact absurd this (by simp)
      | false => rfl
  have hflags := homeEvent_flags s j
  have hmono : ids.all (fun i => seen.contains i) = true →
      ids.all (fun i => seen.contains i || i == j) = true := by
    intro hA
    rw [List.all_eq_true] at hA ⊢
    intro i hi
    rw [hA i hi]
    rfl
  refine ⟨?_, ?_, ?_⟩
  · rw [hflags.2.2.1, hmapeq]
    exact hp2
  · rw [hflags.1, hall2, hall, hg, hh]
    cases hA : ids.all (fun i => seen.contains i) with
    | false => simp
    | true =>
      have hB := hmono hA
      rw [hB]
      simp
  · rw [hflags.2.1, hflags.1, hall, hg, hh]
    cases hA : ids.all (fun i => seen.contains i) with
    | false => simp
    | true =>
      have hB := hmono hA
      rw [hB]
      simp

theorem fold_homeEvents (evs : List Str) : ∀ (s : RobotState)
    (ids seen : List Str),
    s.motors.map (fun m => (m.id, m.home))
      = ids.map (fun i => (i, seen.contains i)) →
    s.home = ids.all (fun i => seen.contains i) →
    s.homing = !s.home →
    (evs.foldl homeEvent s).home
        = ids.all (fun i => (seen ++ evs).contains i) ∧
    (evs.foldl homeEvent s).homing = !(evs.foldl homeEvent s).home := by
  induction evs with
  | nil =>
    intro s ids seen h1 h2 h3
    rw [List.append_nil]
    exact ⟨h2, h3⟩
  | cons j evs ih =>
    intro s ids seen h1 h2 h3
    obtain ⟨p1, p2, p3⟩ := homeEvent_inv s ids seen j h1 h2 h3
    have hres := ih (homeEvent s j) ids (seen ++ [j]) p1 p2 p3
    rw [List.append_assoc] at hres
    exact hres

/-- C1: `robotHome()` sets `homing = true`; starting from a freshly
constructed robot, for every sequence of per-joint home-reached events,
`home` is true and `homing` is false exactly when the events delivered so
far cover every configured joint — i.e. the flags flip exactly at the
event of the last not-yet-homed joint, and never after an earlier joint's
event (instantiate `evs` with any prefix of the event sequence). -/
theorem c1_homing_aggregation (rid : Str) (cfg : List (Str × JVal))
    (ids : List Str) (hne : ids ≠ []) (evs : List Str) :
    (robotHome (construct rid cfg ids)).homing = true ∧
    ((evs.foldl homeEvent (robotHome (construct rid cfg ids))).home = true ↔
      ∀ j ∈ ids, j ∈ evs) ∧
    ((evs.foldl homeEvent (robotHome (construct rid cfg ids))).homing = false ↔
      ∀ j ∈ ids, j ∈ evs) := by
  have h1 : (robotHome (construct rid cfg ids)).motors.map
        (fun m => (m.id, m.home))
      = ids.map (fun i => (i, ([] : List Str).contains i)) := by
    simp only [robotHome, construct, List.map_map]
    rfl
  have h2 : (robotHome (construct rid cfg ids)).home
      = ids.all (fun i => ([] : List Str).contains i) := by
    cases ids with
    | nil => exact absurd rfl hne
    | cons i is => simp [robotHome, construct, List.contains]
  have h3 : (robotHome (construct rid cfg ids)).homing
      = !(robotHome (construct rid cfg ids)).home := by
    rw [h2]
    cases ids with
    | nil => exact absurd rfl hne
    | cons i is => simp [robotHome, construct, List.contains]
  obtain ⟨hhome, hhoming⟩ :=
    fold_homeEvents evs (robotHome (construct rid cfg ids)) ids [] h1 h2 h3
  refine ⟨rfl, ?_, ?_⟩
  · rw [hhome]
    simp [List.all_eq_true, List.contains, List.elem_iff]
  · rw [hhoming, hhome]
    simp [List.all_eq_true, List.contains, List.elem_iff]

/-- C1 witness: two joints, events delivered in the order `j1, j0`: the
flags flip only once both have reported. -/
theorem c1_homing_aggregation_witness :
    ([str "j0", str "j1"] ≠ ([] : List Str)) ∧
    (robotHome (construct (str "r") [] [str "j0", str "j1"])).homing = true ∧
    (([str "j1", str "j0"].foldl homeEvent
        (robotHome (construct (str "r") [] [str "j0", str "j1"]))).home = true ↔
      ∀ j ∈ [str "j0", str "j1"], j ∈ [str "j1", str "j0"]) ∧
    (([str "j1", str "j0"].foldl homeEvent
        (robotHome (construct (str "r") [] [str "j0", str "j1"]))).homing
          = false ↔
      ∀ j ∈ [str "j0", str "j1"], j ∈ [str "j1", str "j0"]) :=
  ⟨by decide, c1_homing_aggregation (str "r") [] [str "j0", str "j1"]
    (by decide) [str "j1", str "j0"]⟩

theorem updateConfig_fst_flags (s : RobotState) (k : Str) (v : Option Int)
    (sv : Bool) :
    (updateConfig s k v sv).1.home = s.home ∧
    (updateConfig s k v sv).1.homing = s.homing ∧
    (updateConfig s k v sv).1.moving = s.moving ∧
    (updateConfig s k v sv).1.stopped = s.stopped := by
  cases v with
  | none => exact ⟨rfl, rfl, rfl, rfl⟩
  | some v =>
    simp only [updateConfig]
    repeat' split
    all_goals simp [emitEv, updMotor]

theorem writeJSP_fst_flags (s : RobotState) :
    (writeJointSetPoints s).1.home = s.home ∧
    (writeJointSetPoints s).1.homing = s.homing ∧
    (writeJointSetPoints s).1.moving = s.moving ∧
    (writeJointSetPoints s).1.stopped = s.stopped := by
  unfold writeJointSetPoints
  split
  · exact ⟨rfl, rfl, rfl, rfl⟩
  · rcases hw : writeAll s.motors s.dispatched with ⟨ms, log, e⟩
    simp [hw]

theorem motorDo_fst_flags (s : RobotState) (id : Str) (f : Motor → Motor) :
    (motorDo s id f).1.home = s.home ∧
    (motorDo s id f).1.homing = s.homing ∧
    (motorDo s id f).1.moving = s.moving ∧
    (motorDo s id f).1.stopped = s.stopped := by
  unfold motorDo
  cases findMotor s id <;> simp [updMotor]

theorem step_preserves_moving (s : RobotState) (op : Op)
    (h : s.moving = true) : (step s op).moving = true := by
  cases op with
  | robotHome => exact h
  | robotStop => exact h
  | robotCenter => rfl
  | robotReset => exact h
  | robotEnable => exact h
  | homeEvent id =>
    show (homeEvent s id).moving = true
    rw [(homeEvent_flags s id).2.2.2.1]
    exact h
  | jointEvent => exact h
  | writeTick => rw [show (step s Op.writeTick).moving
      = (writeJointSetPoints s).1.moving from rfl,
      (writeJSP_fst_flags s).2.2.1]; exact h
  | stateTick => exact h
  | encoderTick => exact h
  | updateConfig k v sv => rw [show (step s (Op.updateConfig k v sv)).moving
      = (updateConfig s k v sv).1.moving from rfl,
      (updateConfig_fst_flags s k v sv).2.2.1]; exact h
  | motorSetPosition id p ve => rw [show
      (step s (Op.motorSetPosition id p ve)).moving
      = (motorDo s id (cmdEff (JointCmd.setPosition p ve))).1.moving from rfl,
      (motorDo_fst_flags s id _).2.2.1]; exact h
  | motorHome id => rw [show (step s (Op.motorHome id)).moving
      = (motorDo s id goHomeEff).1.moving from rfl,
      (motorDo_fst_flags s id _).2.2.1]; exact h
  | motorResetErrors id => rw [show (step s (Op.motorResetErrors id)).moving
      = (motorDo s id (cmdEff JointCmd.reset)).1.moving from rfl,
      (motorDo_fst_flags s id _).2.2.1]; exact h
  | motorEnable id => rw [show (step s (Op.motorEnable id)).moving
      = (motorDo s id (cmdEff JointCmd.enable)).1.moving from rfl,
      (motorDo_fst_flags s id _).2.2.1]; exact h
  | motorDisable id => rw [show (step s (Op.motorDisable id)).moving
      = (motorDo s id (cmdEff JointCmd.disable)).1.moving from rfl,
      (motorDo_fst_flags s id _).2.2.1]; exact h
  | motorZero id => rw [show (step s (Op.motorZero id)).moving
      = (motorDo s id (cmdEff JointCmd.zero)).1.moving from rfl,
      (motorDo_fst_flags s id _).2.2.1]; exact h
  | motorCalibrate id => rw [show (step s (Op.motorCalibrate id)).moving
      = (motorDo s id (cmdEff JointCmd.calibrate)).1.moving from rfl,
      (motorDo_fst_flags s id _).2.2.1]; exact h
  | queryMotorPosition id => rw [show (step s (Op.queryMotorPosition id)).moving
      = (motorDo s id (cmdEff JointCmd.queryPosition)).1.moving from rfl,
      (motorDo_fst_flags s id _).2.2.1]; exact h
  | queryMotorParamter id i jj => rw [show
      (step s (Op.queryMotorParamter id i jj)).moving
      = (motorDo s id (cmdEff (JointCmd.queryParameter i jj))).1.moving from rfl,
      (motorDo_fst_flags s id _).2.2.1]; exact h

theorem step_preserves_excl (s : RobotState) (op : Op)
    (hop : op = Op.robotHome → s.home = false)
    (h : ¬(s.homing = true ∧ s.home = true)) :
    ¬((step s op).homing = true ∧ (step s op).home = true) := by
  have hpair : ∀ t : RobotState, t.homing = s.homing → t.home = s.home →
      ¬(t.homing = true ∧ t.home = true) := by
    intro t h1 h2 hcon
    exact h ⟨h1 ▸ hcon.1, h2 ▸ hcon.2⟩
  cases op with
  | robotHome =>
    intro hcon
    have := hop rfl
    rw [show (step s Op.robotHome).home = s.home from rfl] at hcon
    rw [this] at hcon
    exact absurd hcon.2 (by simp)
  | robotStop => exact hpair _ rfl rfl
  | robotCenter => exact hpair _ rfl rfl
  | robotReset => exact hpair _ rfl rfl
  | robotEnable => exact hpair _ rfl rfl
  | homeEvent id =>
    have hf := homeEvent_flags s id
    intro hcon0
    have hcon : (homeEvent s id).homing = true ∧ (homeEvent s id).home = true :=
      hcon0
    rw [hf.2.1] at hcon
    rw [hf.1] at hcon
    rcases hcon with ⟨h1, h2⟩
    cases hA : (setMotorHomeTrue s id).motors.all (fun m => m.home) with
    | true => rw [hA] at h1; simp at h1
    | false =>
      rw [hA] at h1 h2
      simp at h1 h2
      exact h ⟨h1, h2⟩
  | jointEvent => exact hpair _ rfl rfl
  | writeTick =>
    exact hpair _ (writeJSP_fst_flags s).2.1 (writeJSP_fst_flags s).1
  | stateTick => exact hpair _ rfl rfl
  | encoderTick => exact hpair _ rfl rfl
  | updateConfig k v sv =>
    exact hpair _ (updateConfig_fst_flags s k v sv).2.1
      (updateConfig_fst_flags s k v sv).1
  | motorSetPosition id p ve =>
    exact hpair _ (motorDo_fst_flags s id _).2.1 (motorDo_fst_flags s id _).1
  | motorHome id =>
    exact hpair _ (motorDo_fst_flags s id _).2.1 (motorDo_fst_flags s id _).1
  | motorResetErrors id =>
    exact hpair _ (motorDo_fst_flags s id _).2.1 (motorDo_fst_flags s id _).1
  | motorEnable id =>
    exact hpair _ (motorDo_fst_flags s id _).2.1 (motorDo_fst_flags s id _).1
  | motorDisable id =>
    exact hpair _ (motorDo_fst_flags s id _).2.1 (motorDo_fst_flags s id _).1
  | motorZero id =>
    exact hpair _ (motorDo_fst_flags s id _).2.1 (motorDo_fst_flags s id _).1
  | motorCalibrate id =>
    exact hpair _ (motorDo_fst_flags s id _).2.1 (motorDo_fst_flags s id _).1
  | queryMotorPosition id =>
    exact hpair _ (motorDo_fst_flags s id _).2.1 (motorDo_fst_flags s id _).1
  | queryMotorParamter id i jj =>
    exact hpair _ (motorDo_fst_flags s id _).2.1 (motorDo_fst_flags s id _).1

theorem safe_trace_excl (t : List Op) : ∀ s : RobotState,
    safeTrace s t = true → ¬(s.homing = true ∧ s.home = true) →
    ¬((execTrace s t).homing = true ∧ (execTrace s t).home = true) := by
  induction t with
  | nil => intro s _ h; exact h
  | cons op t ih =>
    intro s hsafe h
    rw [safeTrace, Bool.and_eq_true] at hsafe
    have hop : op = Op.robotHome → s.home = false := by
      intro hh
      subst hh
      simpa [opHomeSafe] using hsafe.1
    exact ih (step s op) hsafe.2 (step_preserves_excl s op hop h)

/-- C2 counterexample: `robotHome()` does not clear `home`, so calling it
after a completed homing yields a reachable state (between handler
executions) in which `homing` and `home` are both true — and `robotHome`
is an operation that sets `homing` to true yet leaves the state with
`home` true. -/
theorem c2_homing_home_exclusive_cex :
    (execTrace (construct (str "r") [] [str "j0"])
        [Op.robotHome, Op.homeEvent (str "j0"), Op.robotHome]).homing = true ∧
    (execTrace (construct (str "r") [] [str "j0"])
        [Op.robotHome, Op.homeEvent (str "j0"), Op.robotHome]).home = true := by
  decide

/-- C2 (amended): `homing` and `home` are never both true in any state
reachable from construction, provided `robotHome()` is only invoked while
`home` is still false; without that proviso the exclusion fails, because
`robotHome()` sets `homing` without clearing `home` (see the
counterexample). -/
theorem c2_homing_home_exclusive_amended (rid : Str)
    (cfg : List (Str × JVal)) (ids : List Str) (t : List Op)
    (h : safeTrace (construct rid cfg ids) t = true) :
    ¬((execTrace (construct rid cfg ids) t).homing = true ∧
      (execTrace (construct rid cfg ids) t).home = true) :=
  safe_trace_excl t (construct rid cfg ids) h (by intro hcon; exact absurd hcon.1 (by simp [construct]))

/-- C2 witness: a home-safe trace (home, complete homing, then stop and a
set-point tick) on a one-joint robot keeps the two flags exclusive. -/
theorem c2_homing_home_exclusive_amended_witness :
    safeTrace (construct (str "r") [] [str "j0"])
        [Op.robotHome, Op.homeEvent (str "j0"), Op.robotStop, Op.writeTick]
      = true ∧
    ¬((execTrace (construct (str "r") [] [str "j0"])
        [Op.robotHome, Op.homeEvent (str "j0"), Op.robotStop,
         Op.writeTick]).homing = true ∧
      (execTrace (construct (str "r") [] [str "j0"])
        [Op.robotHome, Op.homeEvent (str "j0"), Op.robotStop,
         Op.writeTick]).home = true) :=
  ⟨by decide, c2_homing_home_exclusive_amended (str "r") [] [str "j0"]
    [Op.robotHome, Op.homeEvent (str "j0"), Op.robotStop, Op.writeTick]
    (by decide)⟩

/-- C10: once `robotCenter()` has set the `moving` flag, no operation of
the Robot (whole-robot command, per-joint command, joint event handler,
`updateConfig`, or scheduler tick) ever sets `moving` back to false: in
every state reachable after a `robotCenter()` call, `moving = true`. -/
theorem c10_moving_never_cleared (s : RobotState) (t : List Op) :
    (execTrace (robotCenter s) t).moving = true := by
  have hgen : ∀ (u : List Op) (s' : RobotState), s'.moving = true →
      (execTrace s' u).moving = true := by
    intro u
    induction u with
    | nil => intro s' h; exact h
    | cons op u ih => intro s' h; exact ih _ (step_preserves_moving s' op h)
  exact hgen t (robotCenter s) rfl

end Igus
